import Mathlib

/-
Verification of the gene-tools polygenic scoring engine.

Shallow embedding of the scoring code:
 - `Athletic` models `athletic_score.py` (strand-aware allele counting,
   per-SNP additive scoring, per-category aggregation).
 - `DnaInterp` models `analyze_dna.py`'s `get_genotype_interpretation`.
 - `Cognitive` models `cognitive_score.py` (GWAS matching loop, coverage
   gate, and the `_standardize_score_improved` standardizer).

Numbers are embedded as exact rationals/reals.  The one place where IEEE
floating point is semantically relevant is scipy's `t.ppf(0.975, df)`,
which returns NaN for `df = 0`; that routine is modelled as a parameter of
type `ℕ → Option ℝ`, where `none` stands for NaN and propagates through
the subsequent multiplications, and any `x > 0` comparison on NaN is
false, exactly as in IEEE arithmetic.
-/

namespace Athletic

/-- Embedding of `AthleticScorer.complement` (athletic_score.py:582-586):
`comp.get(allele.upper(), allele)` — the argument is upper-cased for the
table lookup, and an allele whose upper-case is not A/C/G/T is returned
unchanged. -/
def complement (a : Char) : Char :=
  if a.toUpper = 'A' then 'T'
  else if a.toUpper = 'T' then 'A'
  else if a.toUpper = 'G' then 'C'
  else if a.toUpper = 'C' then 'G'
  else a

/-- One iteration of the allele-counting loop of `calculate_snp_score`
(athletic_score.py:616-620): a character is first tested against the
endurance alleles and their complements, and only if that fails against
the power alleles and their complements. -/
def alleleStep (E P : List Char) (c : ℕ × ℕ) (a : Char) : ℕ × ℕ :=
  if a ∈ E ∨ a ∈ E.map complement then (c.1 + 1, c.2)
  else if a ∈ P ∨ a ∈ P.map complement then (c.1, c.2 + 1)
  else c

/-- The allele-counting loop of `calculate_snp_score`
(athletic_score.py:612-620): returns `(endurance_count, power_count)`. -/
def countAlleles (genotype E P : List Char) : ℕ × ℕ :=
  genotype.foldl (alleleStep E P) (0, 0)

/-- The scoring branch of `calculate_snp_score` (athletic_score.py:626-636),
with `effect_weight` the value `math.log(effect_size) if effect_size > 0
else 0` computed at line 624; the weight enters only through this
parameter, so it is taken as an input here. -/
def snp_score (genotype E P : List Char) (effect_weight : ℚ) : ℚ :=
  let c := countAlleles genotype E P
  if c.1 = 2 then effect_weight
  else if c.2 = 2 then -effect_weight
  else if c.1 = 1 ∧ c.2 = 1 then 0
  else 0

/-- Embedding of `calculate_snp_score` (athletic_score.py:588-659): the
genotype looked up in the store is `none` when the marker is absent or its
call is NaN (lines 601-602), in which case the returned score is `None`;
otherwise the additive score is computed.  The interpretation string of
the source is presentation only and is not modelled. -/
def calculate_snp_score (genotype : Option (List Char)) (E P : List Char)
    (effect_weight : ℚ) : Option ℚ :=
  genotype.map (fun g => snp_score g E P effect_weight)

/-- The seven category tags declared in `calculate_polygenic_score`
(athletic_score.py:666-674). -/
inductive Cat where
  | muscle_energy
  | adrenergic
  | oxygen
  | neuromotor
  | inflammation
  | connective
  | fuel
  deriving DecidableEq, Fintype

/-- Catalog record, after the fields of `AthleticSNP`
(athletic_score.py:12-25) that scoring reads; `effect_weight` carries
`log(effect_size)` as explained at `snp_score`. -/
structure AthleticSNP where
  rsid : String
  category : Cat
  endurance_alleles : List Char
  power_alleles : List Char
  effect_weight : ℚ

/-- Mutable state of the aggregation loop of `calculate_polygenic_score`
(athletic_score.py:664-674). -/
structure AthState where
  total_score : ℚ
  category_scores : Cat → ℚ
  snp_scores : List (String × ℚ)
  missing_snps : List String

/-- One iteration of the aggregation loop (athletic_score.py:676-695):
a scored marker is added to the total, to its category and to
`snp_scores`; a `None` score sends the marker to `missing_snps`. -/
def athStep (store : String → Option (List Char)) (st : AthState)
    (snp : AthleticSNP) : AthState :=
  match calculate_snp_score (store snp.rsid) snp.endurance_alleles
      snp.power_alleles snp.effect_weight with
  | some s =>
      { total_score := st.total_score + s
        category_scores := fun c =>
          st.category_scores c + (if c = snp.category then s else 0)
        snp_scores := st.snp_scores ++ [(snp.rsid, s)]
        missing_snps := st.missing_snps }
  | none => { st with missing_snps := st.missing_snps ++ [snp.rsid] }

/-- Result record of `calculate_polygenic_score`
(athletic_score.py:714-724); the percentage/athletic-type presentation
fields are not modelled. -/
structure AthResult where
  total_score : ℚ
  category_scores : Cat → ℚ
  snp_scores : List (String × ℚ)
  missing_snps : List String
  snps_analyzed : ℕ
  snps_total : ℕ

/-- Embedding of `calculate_polygenic_score` (athletic_score.py:661-724),
generic in the catalog (the source iterates the `ATHLETIC_SNPS` dict in
declaration order) and in the genotype store. -/
def calculate_polygenic_score (catalog : List AthleticSNP)
    (store : String → Option (List Char)) : AthResult :=
  let fin := catalog.foldl (athStep store) ⟨0, fun _ => 0, [], []⟩
  ⟨fin.total_score, fin.category_scores, fin.snp_scores, fin.missing_snps,
    fin.snp_scores.length, catalog.length⟩

lemma countAlleles_foldl (E P : List Char) : ∀ (g : List Char) (s : ℕ × ℕ),
    g.foldl (alleleStep E P) s =
      (s.1 + (countAlleles g E P).1, s.2 + (countAlleles g E P).2) := by
  intro g
  induction g with
  | nil => intro s; simp [countAlleles]
  | cons a g ih =>
    intro s
    simp only [countAlleles, List.foldl_cons] at *
    rw [ih (alleleStep E P s a), ih (alleleStep E P (0, 0) a)]
    unfold alleleStep
    split_ifs <;> simp [Prod.ext_iff] <;> omega

lemma countAlleles_cons (a : Char) (g E P : List Char) :
    countAlleles (a :: g) E P =
      if a ∈ E ∨ a ∈ E.map complement then
        ((countAlleles g E P).1 + 1, (countAlleles g E P).2)
      else if a ∈ P ∨ a ∈ P.map complement then
        ((countAlleles g E P).1, (countAlleles g E P).2 + 1)
      else countAlleles g E P := by
  show (a :: g).foldl (alleleStep E P) (0, 0) = _
  rw [List.foldl_cons, countAlleles_foldl]
  unfold alleleStep
  split_ifs <;> simp [Prod.ext_iff] <;> omega

lemma ath_total_eq_sum (store : String → Option (List Char)) :
    ∀ (catalog : List AthleticSNP) (st : AthState),
      st.total_score = ∑ c, st.category_scores c →
      (catalog.foldl (athStep store) st).total_score
        = ∑ c, (catalog.foldl (athStep store) st).category_scores c := by
  intro catalog
  induction catalog with
  | nil => intro st h; simpa using h
  | cons snp rest ih =>
    intro st h
    rw [List.foldl_cons]
    apply ih
    unfold athStep
    cases hc : calculate_snp_score (store snp.rsid) snp.endurance_alleles
        snp.power_alleles snp.effect_weight with
    | none => simpa using h
    | some s =>
      simp only
      rw [Finset.sum_add_distrib, Finset.sum_ite_eq' Finset.univ snp.category
        (fun _ => s)]
      simp [h]

lemma ath_counts (store : String → Option (List Char)) :
    ∀ (catalog : List AthleticSNP) (st : AthState),
      (catalog.foldl (athStep store) st).snp_scores.length
          + (catalog.foldl (athStep store) st).missing_snps.length
        = st.snp_scores.length + st.missing_snps.length + catalog.length := by
  intro catalog
  induction catalog with
  | nil => intro st; simp
  | cons snp rest ih =>
    intro st
    rw [List.foldl_cons, ih]
    unfold athStep
    cases hc : calculate_snp_score (store snp.rsid) snp.endurance_alleles
        snp.power_alleles snp.effect_weight <;> simp <;> omega

lemma ath_missing (store : String → Option (List Char)) :
    ∀ (catalog : List AthleticSNP) (st : AthState),
      (catalog.foldl (athStep store) st).missing_snps
        = st.missing_snps
            ++ (catalog.filter fun m => (store m.rsid).isNone).map
                (fun m => m.rsid) := by
  intro catalog
  induction catalog with
  | nil => intro st; simp
  | cons snp rest ih =>
    intro st
    rw [List.foldl_cons, ih]
    cases hs : store snp.rsid with
    | none => simp [athStep, calculate_snp_score, hs, List.filter_cons]
    | some g => simp [athStep, calculate_snp_score, hs, List.filter_cons]

lemma ath_analyzed (store : String → Option (List Char)) :
    ∀ (catalog : List AthleticSNP) (st : AthState),
      (catalog.foldl (athStep store) st).snp_scores.length
        = st.snp_scores.length
            + ((catalog.filter fun m => (store m.rsid).isSome).length) := by
  intro catalog
  induction catalog with
  | nil => intro st; simp
  | cons snp rest ih =>
    intro st
    rw [List.foldl_cons, ih]
    cases hs : store snp.rsid with
    | none => simp [athStep, calculate_snp_score, hs, List.filter_cons]
    | some g =>
      simp [athStep, calculate_snp_score, hs, List.filter_cons]
      omega

end Athletic

namespace DnaInterp

/-- Embedding of the `complement_map` lookup of
`get_genotype_interpretation` (analyze_dna.py:1631-1632):
`complement_map.get(a, a)` — note no upper-casing here, any character
outside upper-case A/C/G/T passes through unchanged. -/
def complement_map (a : Char) : Char :=
  if a = 'A' then 'T'
  else if a = 'T' then 'A'
  else if a = 'G' then 'C'
  else if a = 'C' then 'G'
  else a

/-- Embedding of `get_genotype_interpretation` (analyze_dna.py:1619-1641).
The interpretation table is modelled as a lookup function returning
`none` when the key is absent from the dict. -/
def get_genotype_interpretation (genotype : List Char)
    (data : List Char → Option String) : String :=
  match data genotype with
  | some v => v
  | none =>
    match data genotype.reverse with
    | some v => v
    | none =>
      match data (genotype.map complement_map) with
      | some v => v
      | none =>
        match data ((genotype.map complement_map).reverse) with
        | some v => v
        | none => "Unknown genotype: " ++ String.mk genotype

end DnaInterp

lemma mem_comp_iff (a : Char) (S : List Char)
    (ha : Athletic.complement (Athletic.complement a) = a)
    (hS : ∀ c ∈ S, Athletic.complement (Athletic.complement c) = c) :
    (Athletic.complement a ∈ S ∨
        Athletic.complement a ∈ S.map Athletic.complement)
      ↔ (a ∈ S ∨ a ∈ S.map Athletic.complement) := by
  constructor
  · rintro (h | h)
    · right
      exact ha ▸ List.mem_map_of_mem Athletic.complement h
    · left
      obtain ⟨c, hc, hcc⟩ := List.mem_map.mp h
      have h1 := hS c hc
      rw [hcc, ha] at h1
      rwa [← h1] at hc
  · rintro (h | h)
    · right
      exact List.mem_map_of_mem Athletic.complement h
    · left
      obtain ⟨c, hc, hcc⟩ := List.mem_map.mp h
      rw [← hcc, hS c hc]
      exact hc

/-- C10: for every catalog and genotype store, the aggregator's overall
total score equals the sum of the seven per-category scores, and the
number of markers analyzed plus the number of markers in the missing list
equals the total number of catalog markers. -/
theorem athletic_bookkeeping_invariants (catalog : List Athletic.AthleticSNP)
    (store : String → Option (List Char)) :
    (Athletic.calculate_polygenic_score catalog store).total_score
        = ∑ c, (Athletic.calculate_polygenic_score catalog store).category_scores c
      ∧ (Athletic.calculate_polygenic_score catalog store).snps_analyzed
            + (Athletic.calculate_polygenic_score catalog store).missing_snps.length
        = (Athletic.calculate_polygenic_score catalog store).snps_total := by
  unfold Athletic.calculate_polygenic_score
  refine ⟨Athletic.ath_total_eq_sum store catalog _ (by simp), ?_⟩
  have h := Athletic.ath_counts store catalog ⟨0, fun _ => 0, [], []⟩
  simpa using h

/-- Scenario catalog for C2: one marker, favorable C, unfavorable T,
weight 2. -/
def c2Catalog : List Athletic.AthleticSNP :=
  [⟨"rs1", Athletic.Cat.muscle_energy, ['C'], ['T'], 2⟩]

/-- Scenario store for C2: genotype GA for the one marker. -/
def c2Store : String → Option (List Char) :=
  fun s => if s = "rs1" then some ['G', 'A'] else none

/-- Store giving the marker a genotype (II) that no transform classifies. -/
def c2StoreII : String → Option (List Char) :=
  fun s => if s = "rs1" then some ['I', 'I'] else none

/-- C2 (counterexample): on the claimed scenario (favorable C, unfavorable
T, weight 2.0, genotype GA) the missing count is 0, not 1 — GA resolves
via the complement strand (G = complement of C, A = complement of T) as
heterozygous and is scored 0, while the marker counts as analyzed; and
even a genotype (II) that no transform classifies is scored 0 and counted
as analyzed instead of missing. -/
theorem athletic_unresolved_not_missing_cex :
    (Athletic.calculate_polygenic_score c2Catalog c2Store).category_scores
        Athletic.Cat.muscle_energy = 0
      ∧ (Athletic.calculate_polygenic_score c2Catalog c2Store).missing_snps.length
          = 0
      ∧ (Athletic.calculate_polygenic_score c2Catalog c2Store).missing_snps.length
          ≠ 1
      ∧ (Athletic.calculate_polygenic_score c2Catalog c2Store).snps_analyzed = 1
      ∧ (Athletic.calculate_polygenic_score c2Catalog c2StoreII).missing_snps.length
          = 0
      ∧ (Athletic.calculate_polygenic_score c2Catalog c2StoreII).snps_analyzed
          = 1 := by
  refine ⟨?_, ?_, ?_, ?_, ?_, ?_⟩ <;>
    simp [Athletic.calculate_polygenic_score, Athletic.athStep,
      Athletic.calculate_snp_score, c2Catalog, c2Store, c2StoreII,
      Athletic.snp_score, Athletic.countAlleles, Athletic.alleleStep,
      Athletic.complement]

/-- C2 (amended): the missing-markers list records exactly the catalog
markers whose genotype is absent from the store (or a NaN call); a marker
whose genotype is present is always scored and counted as analyzed — when
no allele can be classified it contributes 0 but is not recorded missing.
In particular the scenario genotype GA resolves via the complement strand
as heterozygous: category score 0.0, missing count 0. -/
theorem athletic_missing_iff_absent (catalog : List Athletic.AthleticSNP)
    (store : String → Option (List Char)) :
    (Athletic.calculate_polygenic_score catalog store).missing_snps
        = (catalog.filter fun m => (store m.rsid).isNone).map (fun m => m.rsid)
      ∧ (Athletic.calculate_polygenic_score catalog store).snps_analyzed
        = (catalog.filter fun m => (store m.rsid).isSome).length := by
  unfold Athletic.calculate_polygenic_score
  constructor
  · simpa using Athletic.ath_missing store catalog ⟨0, fun _ => 0, [], []⟩
  · simpa using Athletic.ath_analyzed store catalog ⟨0, fun _ => 0, [], []⟩

/-- C3 (counterexample): for a marker with endurance allele T and power
allele A (the rs1049434 configuration) and weight 2, the homozygous-
unfavorable genotype AA scores +2, not -2: each A is matched as the
complement of endurance-T before the power set is consulted. -/
theorem athletic_additive_cex :
    Athletic.snp_score ['A', 'A'] ['T'] ['A'] 2 = 2
      ∧ Athletic.snp_score ['A', 'A'] ['T'] ['A'] 2 ≠ -2 := by
  decide

/-- C3 (amended): under the additive policy with weight w, a homozygous-
favorable genotype always contributes exactly +w; and provided the
unfavorable alleles involved are neither favorable alleles nor complements
of favorable alleles, a homozygous-unfavorable genotype contributes
exactly -w and a heterozygous genotype exactly 0 (no half weight).  When
that proviso fails — an unfavorable allele that is the complement of a
favorable one — the complement-first matching counts it as favorable,
as the counterexample shows. -/
theorem athletic_additive_contributions (E P : List Char) (w : ℚ)
    (x y : Char) :
    (x ∈ E → y ∈ E → Athletic.snp_score [x, y] E P w = w)
      ∧ (x ∈ P → ¬(x ∈ E ∨ x ∈ E.map Athletic.complement) →
          y ∈ P → ¬(y ∈ E ∨ y ∈ E.map Athletic.complement) →
          Athletic.snp_score [x, y] E P w = -w)
      ∧ (x ∈ E → y ∈ P → ¬(y ∈ E ∨ y ∈ E.map Athletic.complement) →
          Athletic.snp_score [x, y] E P w = 0
            ∧ Athletic.snp_score [y, x] E P w = 0) := by
  refine ⟨?_, ?_, ?_⟩
  · intro hx hy
    have hc : Athletic.countAlleles [x, y] E P = (2, 0) := by
      rw [Athletic.countAlleles_cons, Athletic.countAlleles_cons,
        if_pos (Or.inl hy), if_pos (Or.inl hx)]
      rfl
    simp [Athletic.snp_score, hc]
  · intro hx hxn hy hyn
    have hc : Athletic.countAlleles [x, y] E P = (0, 2) := by
      rw [Athletic.countAlleles_cons, Athletic.countAlleles_cons,
        if_neg hyn, if_pos (Or.inl hy), if_neg hxn, if_pos (Or.inl hx)]
      rfl
    simp [Athletic.snp_score, hc]
  · intro hx hy hyn
    have hcy : Athletic.countAlleles [y] E P = (0, 1) := by
      rw [Athletic.countAlleles_cons, if_neg hyn, if_pos (Or.inl hy)]
      rfl
    constructor
    · have hc : Athletic.countAlleles [x, y] E P = (1, 1) := by
        rw [Athletic.countAlleles_cons, hcy, if_pos (Or.inl hx)]
      simp [Athletic.snp_score, hc]
    · have hc : Athletic.countAlleles [y, x] E P = (1, 1) := by
        have hcx : Athletic.countAlleles [x] E P = (1, 0) := by
          rw [Athletic.countAlleles_cons, if_pos (Or.inl hx)]
          rfl
        rw [Athletic.countAlleles_cons, hcx, if_neg hyn, if_pos (Or.inl hy)]
      simp [Athletic.snp_score, hc]

/-- C3 (witness): the three amended contribution rules at the scenario
marker favorable C / unfavorable T with weight 2: CC scores +2, TT scores
-2, CT and TC score 0. -/
theorem athletic_additive_contributions_witness :
    Athletic.snp_score ['C', 'C'] ['C'] ['T'] 2 = 2
      ∧ Athletic.snp_score ['T', 'T'] ['C'] ['T'] 2 = -2
      ∧ Athletic.snp_score ['C', 'T'] ['C'] ['T'] 2 = 0
      ∧ Athletic.snp_score ['T', 'C'] ['C'] ['T'] 2 = 0 := by
  have h := athletic_additive_contributions ['C'] ['T'] 2
  have h1 := (h 'C' 'C').1 (by decide) (by decide)
  have h2 := (h 'T' 'T').2.1 (by decide) (by decide) (by decide) (by decide)
  have h3 := (h 'C' 'T').2.2 (by decide) (by decide) (by decide)
  exact ⟨h1, h2, h3.1, h3.2⟩

/-- C8 (counterexample): complement symmetry fails on lower-case input:
resolving the genotype "a" against favorable {A}, unfavorable {G} counts
(0, 0), but its complement under the scorer's table (which upper-cases,
so "a" becomes "T") counts (1, 0). -/
theorem athletic_complement_symmetry_cex :
    Athletic.countAlleles (['a'].map Athletic.complement) ['A'] ['G']
      ≠ Athletic.countAlleles ['a'] ['A'] ['G'] := by
  decide

/-- C8 (amended): for every genotype string and favorable/unfavorable
allele sets whose characters the complement table maps involutively
(true of every character except lower-case a/c/g/t, which the table
upper-cases), resolving the genotype and resolving its complement yield
the same favorable and unfavorable allele counts. -/
theorem athletic_complement_symmetry (g E P : List Char)
    (hg : ∀ c ∈ g, Athletic.complement (Athletic.complement c) = c)
    (hE : ∀ c ∈ E, Athletic.complement (Athletic.complement c) = c)
    (hP : ∀ c ∈ P, Athletic.complement (Athletic.complement c) = c) :
    Athletic.countAlleles (g.map Athletic.complement) E P
      = Athletic.countAlleles g E P := by
  induction g with
  | nil => rfl
  | cons a g ih =>
    have ha := hg a (List.mem_cons_self a g)
    have hg' : ∀ c ∈ g, Athletic.complement (Athletic.complement c) = c :=
      fun c hc => hg c (List.mem_cons_of_mem a hc)
    rw [List.map_cons, Athletic.countAlleles_cons,
      Athletic.countAlleles_cons a g, ih hg']
    simp only [mem_comp_iff a E ha hE, mem_comp_iff a P ha hP]

/-- C8 (witness): complement symmetry at the upper-case genotype AT
against favorable {A}, unfavorable {C}. -/
theorem athletic_complement_symmetry_witness :
    (∀ c ∈ (['A', 'T'] : List Char),
        Athletic.complement (Athletic.complement c) = c)
      ∧ Athletic.countAlleles (['A', 'T'].map Athletic.complement) ['A'] ['C']
        = Athletic.countAlleles ['A', 'T'] ['A'] ['C'] := by
  refine ⟨by decide, ?_⟩
  exact athletic_complement_symmetry ['A', 'T'] ['A'] ['C'] (by decide)
    (by decide) (by decide)

/-- C9: for a marker whose power-allele set consists exactly of the
complements of its endurance alleles (e.g. rs1049434: endurance {T},
power {A}), the power branch of the counting loop is unreachable — every
matching character is counted as endurance — so the power count is 0 for
every genotype and the score is never negative for a non-negative
weight. -/
theorem athletic_complement_pair_never_negative (E P g : List Char) (w : ℚ)
    (hE : ∀ c ∈ E, Athletic.complement (Athletic.complement c) = c)
    (hP : P = E.map Athletic.complement) :
    (Athletic.countAlleles g E P).2 = 0
      ∧ (0 ≤ w → 0 ≤ Athletic.snp_score g E P w) := by
  have hcount : (Athletic.countAlleles g E P).2 = 0 := by
    induction g with
    | nil => rfl
    | cons a g ih =>
      rw [Athletic.countAlleles_cons]
      by_cases h1 : a ∈ E ∨ a ∈ E.map Athletic.complement
      · rw [if_pos h1]
        exact ih
      · have h2 : ¬(a ∈ P ∨ a ∈ P.map Athletic.complement) := by
          rintro (hp | hp)
          · exact h1 (Or.inr (hP ▸ hp))
          · obtain ⟨c, hc, hcc⟩ := List.mem_map.mp hp
            obtain ⟨e, he, hec⟩ := List.mem_map.mp (hP ▸ hc)
            exact h1 (Or.inl (by rw [← hcc, ← hec, hE e he]; exact he))
        rw [if_neg h1, if_neg h2]
        exact ih
  refine ⟨hcount, fun hw => ?_⟩
  unfold Athletic.snp_score
  simp only [hcount]
  split_ifs <;> simp_all

namespace Cognitive

open scoped Classical

/-- One matched marker row as appended by the matching loop of
`calculate_polygenic_score` (cognitive_score.py:136-145); only the fields
the standardizer reads (`beta`, `eaf`, `contribution`) are modelled. -/
structure MatchedSNP where
  beta : ℚ
  eaf : ℚ
  contribution : ℚ

/-- The contribution column of the matched list
(cognitive_score.py:205). -/
def contributions (m : List MatchedSNP) : List ℚ :=
  m.map (fun s => s.contribution)

/-- `raw_score = sum(snp['contribution'] ...)` (cognitive_score.py:202). -/
def raw_score (m : List MatchedSNP) : ℚ := (contributions m).sum

/-- `np.mean` on a rational list (0 on the empty list, where the source
would warn and give NaN; the standardizer is never called on an empty
matched list behind the coverage gate). -/
def listMean (xs : List ℚ) : ℚ := xs.sum / xs.length

/-- Population variance, the square of `np.std`. -/
def listVar (xs : List ℚ) : ℚ :=
  listMean (xs.map (fun x => (x - listMean xs) ^ 2))

/-- `empirical_mean = np.mean(contributions) * len(matched_snps)`
(cognitive_score.py:206). -/
def empirical_mean (m : List MatchedSNP) : ℚ :=
  listMean (contributions m) * m.length

/-- `empirical_sd = np.std(contributions) * np.sqrt(len(matched_snps))`
(cognitive_score.py:207). -/
noncomputable def empirical_sd (m : List MatchedSNP) : ℝ :=
  Real.sqrt (listVar (contributions m)) * Real.sqrt m.length

/-- The empirical z-score with its division-by-zero guard
(cognitive_score.py:209-212). -/
noncomputable def empirical_z (m : List MatchedSNP) : ℝ :=
  if 0 < empirical_sd m then
    ((raw_score m - empirical_mean m : ℚ) : ℝ) / empirical_sd m
  else 0

/-- `expected_mean += beta * 2 * eaf` summed over the matched markers
(cognitive_score.py:217-225). -/
def expected_mean (m : List MatchedSNP) : ℚ :=
  (m.map (fun s => s.beta * 2 * s.eaf)).sum

/-- `expected_variance += beta**2 * 2 * eaf * (1 - eaf)` summed over the
matched markers (cognitive_score.py:227). -/
def expected_variance (m : List MatchedSNP) : ℚ :=
  (m.map (fun s => s.beta ^ 2 * 2 * s.eaf * (1 - s.eaf))).sum

/-- `expected_sd = np.sqrt(expected_variance)` before the small-sample
adjustment (cognitive_score.py:229). -/
noncomputable def expected_sd_raw (m : List MatchedSNP) : ℝ :=
  Real.sqrt (expected_variance m)

/-- The small-sample adjustment (cognitive_score.py:233-241): for fewer
than 100 matched markers the SD is multiplied by `t_critical / 1.96`
where `t_critical = scipy.stats.t.ppf(0.975, len - 1)`.  The scipy
routine is a parameter `tppf`; its value is NaN (`none`) outside the
distribution's domain (df = 0), and NaN propagates through the
multiplication. -/
noncomputable def adjusted_expected_sd (tppf : ℕ → Option ℝ)
    (m : List MatchedSNP) : Option ℝ :=
  if m.length < 100 then
    (tppf (m.length - 1)).map (fun t => expected_sd_raw m * (t / 1.96))
  else some (expected_sd_raw m)

/-- The population z-score with its guard (cognitive_score.py:243-246):
`expected_sd > 0` is false for NaN as in IEEE comparison, and the guard
failing falls back to the empirical z-score. -/
noncomputable def population_z (tppf : ℕ → Option ℝ)
    (m : List MatchedSNP) : ℝ :=
  match adjusted_expected_sd tppf m with
  | some s =>
      if 0 < s then ((raw_score m - expected_mean m : ℚ) : ℝ) / s
      else empirical_z m
  | none => empirical_z m

/-- The dict returned by `_standardize_score_improved`
(cognitive_score.py:275-286). -/
structure StdResult where
  z_score : ℝ
  percentile : ℝ
  confidence_low : Option ℝ
  confidence_high : Option ℝ
  bootstrap_mean : ℚ
  bootstrap_sd : Option ℝ
  expected_mean : ℚ
  expected_sd : Option ℝ
  empirical_z : ℝ
  population_z : ℝ

/-- Embedding of `_standardize_score_improved` (cognitive_score.py:192-286)
on its `bootstrap=False` path (the claims address the analytic interval;
the resampling branch draws random resamples and is outside this model).
`tppf` and `ncdf` are the scipy routines `t.ppf(0.975, ·)` and
`norm.cdf`. -/
noncomputable def standardize_score_improved (tppf : ℕ → Option ℝ)
    (ncdf : ℝ → ℝ) (m : List MatchedSNP) : StdResult :=
  { z_score := population_z tppf m
    percentile := ncdf (population_z tppf m) * 100
    confidence_low := (adjusted_expected_sd tppf m).map
      (fun s => ((raw_score m : ℚ) : ℝ) - 1.96 * s)
    confidence_high := (adjusted_expected_sd tppf m).map
      (fun s => ((raw_score m : ℚ) : ℝ) + 1.96 * s)
    bootstrap_mean := raw_score m
    bootstrap_sd := adjusted_expected_sd tppf m
    expected_mean := expected_mean m
    expected_sd := adjusted_expected_sd tppf m
    empirical_z := empirical_z m
    population_z := population_z tppf m }

/-- A row of the GWAS summary-statistics table after loading/filtering
(cognitive_score.py:40-45): effect allele `a1`, other allele `a2`,
effect-allele frequency and effect size. -/
structure Gwas where
  a1 : Char
  a2 : Char
  eaf : ℚ
  beta : ℚ

/-- The `complement` dict of the matching loop (cognitive_score.py:116):
keyed by upper-case A/C/G/T only; any other key raises KeyError, modelled
as `none` (the source skips the marker in that case). -/
def acgt_complement (c : Char) : Option Char :=
  if c = 'A' then some 'T'
  else if c = 'T' then some 'A'
  else if c = 'C' then some 'G'
  else if c = 'G' then some 'C'
  else none

/-- One iteration of the SNP-matching loop (cognitive_score.py:89-145):
skip absent markers and missing-call sentinels; count the effect allele;
accept the marker when its alleles are a subset of the GWAS pair, or of
the complemented pair after a strand flip; otherwise skip it. -/
def matchStep (store : String → Option (List Char))
    (acc : List MatchedSNP) (entry : String × Gwas) : List MatchedSNP :=
  match store entry.1 with
  | none => acc
  | some geno =>
    if geno = ['-', '-'] ∨ geno = ['0', '0'] ∨ geno = ['I', 'I']
        ∨ geno = ['D', 'D'] then acc
    else
      let eff := entry.2.a1.toUpper
      let oth := entry.2.a2.toUpper
      let genoU := geno.map Char.toUpper
      if genoU.all (fun c => c == eff || c == oth) then
        acc ++ [⟨entry.2.beta, entry.2.eaf,
          entry.2.beta * (genoU.count eff : ℚ)⟩]
      else
        match acgt_complement eff, acgt_complement oth with
        | some ce, some co =>
          if genoU.all (fun c => c == ce || c == co) then
            acc ++ [⟨entry.2.beta, entry.2.eaf,
              entry.2.beta * (genoU.count ce : ℚ)⟩]
          else acc
        | _, _ => acc

/-- The matched-marker list built by the loop of
`calculate_polygenic_score` (cognitive_score.py:82-145). -/
def matched_snps (sumstats : List (String × Gwas))
    (store : String → Option (List Char)) : List MatchedSNP :=
  sumstats.foldl (matchStep store) []

/-- The results dict of `calculate_polygenic_score`
(cognitive_score.py:149-190), modelled as a record of optional fields:
a key the source leaves out of the dict (error case, or the no-coverage
branch for the standardization keys) is `none`, matching what
`results.get(key)` yields. -/
structure PgsResult where
  raw_score : Option ℚ
  num_snps_matched : ℕ
  num_snps_available : ℕ
  coverage_percent : Option ℚ
  z_score : Option ℝ
  percentile : Option ℝ
  expected_mean : Option ℚ
  expected_sd : Option (Option ℝ)
  confidence_low : Option (Option ℝ)
  confidence_high : Option (Option ℝ)
  is_error : Bool

/-- Embedding of `CognitiveScorer.calculate_polygenic_score`
(cognitive_score.py:64-190).  Summary-statistics loading and filtering is
file I/O outside the scoring core; `sumstats` is the loaded table.  An
empty match returns the error dict (line 149-152); otherwise coverage is
`matched/available*100` (line 155) and standardization runs only when
requested and coverage exceeds 3 (line 174), else the six standardization
keys are set to None (lines 181-188). -/
noncomputable def calculate_polygenic_score (tppf : ℕ → Option ℝ)
    (ncdf : ℝ → ℝ) (sumstats : List (String × Gwas))
    (store : String → Option (List Char))
    (calculate_z_score : Bool) : PgsResult :=
  let matched := matched_snps sumstats store
  if matched.length = 0 then
    ⟨none, 0, sumstats.length, none, none, none, none, none, none, none, true⟩
  else
    let coverage : ℚ := (matched.length : ℚ) / (sumstats.length : ℚ) * 100
    if calculate_z_score = true ∧ 3 < coverage then
      let st := standardize_score_improved tppf ncdf matched
      ⟨some (raw_score matched), matched.length, sumstats.length,
        some coverage, some st.z_score, some st.percentile,
        some st.expected_mean, some st.expected_sd, some st.confidence_low,
        some st.confidence_high, false⟩
    else
      ⟨some (raw_score matched), matched.length, sumstats.length,
        some coverage, none, none, none, none, none, none, false⟩

lemma empirical_mean_eq_raw (m : List MatchedSNP) :
    empirical_mean m = raw_score m := by
  unfold empirical_mean listMean raw_score
  by_cases h : m = []
  · subst h; simp [contributions]
  · have hlen : ((contributions m).length : ℚ) ≠ 0 := by
      simpa [contributions, List.length_map] using h
    have hlen2 : (contributions m).length = m.length := by
      simp [contributions]
    rw [← hlen2, div_mul_cancel₀ _ hlen]

lemma empirical_z_zero (m : List MatchedSNP) : empirical_z m = 0 := by
  unfold empirical_z
  split_ifs with h
  · rw [empirical_mean_eq_raw]
    simp
  · rfl

end Cognitive

/-- C1: for every matched-marker list passed to the standardizer, when the
allele-frequency-derived expected standard deviation is 0 the returned
z-score is exactly 0 — not NaN, not an exception, not any other value:
the `expected_sd > 0` guard fails (also when the df = 0 adjustment turned
the SD into NaN) and the fallback empirical z-score is identically 0 in
exact arithmetic, since the empirical mean times the matched count equals
the raw score. -/
theorem standardizer_zero_sd_zero_z (tppf : ℕ → Option ℝ) (ncdf : ℝ → ℝ)
    (m : List Cognitive.MatchedSNP)
    (h : Cognitive.expected_sd_raw m = 0) :
    (Cognitive.standardize_score_improved tppf ncdf m).z_score = 0 := by
  show Cognitive.population_z tppf m = 0
  unfold Cognitive.population_z
  cases hadj : Cognitive.adjusted_expected_sd tppf m with
  | none => exact Cognitive.empirical_z_zero m
  | some s =>
    have hs : s = 0 := by
      unfold Cognitive.adjusted_expected_sd at hadj
      split_ifs at hadj with hlen
      · obtain ⟨t, ht, hval⟩ := Option.map_eq_some'.mp hadj
        rw [h, zero_mul] at hval
        exact hval.symm
      · rw [h] at hadj
        exact (Option.some_inj.mp hadj).symm
    rw [hs]
    show (if (0 : ℝ) < 0 then
        ((Cognitive.raw_score m - Cognitive.expected_mean m : ℚ) : ℝ) / 0
      else Cognitive.empirical_z m) = 0
    rw [if_neg (lt_irrefl (0 : ℝ))]
    exact Cognitive.empirical_z_zero m

/-- Marker list with zero expected variance (effect-allele frequency 0),
used to witness C1. -/
def w1m : List Cognitive.MatchedSNP := [⟨1, 0, 2⟩]

/-- C1 (witness): on a concrete one-marker list with zero allele-frequency
variance the standardizer returns z-score 0. -/
theorem standardizer_zero_sd_zero_z_witness :
    Cognitive.expected_sd_raw w1m = 0
      ∧ (Cognitive.standardize_score_improved (fun _ => none) (fun _ => 0)
          w1m).z_score = 0 := by
  have h : Cognitive.expected_sd_raw w1m = 0 := by
    have hv : Cognitive.expected_variance w1m = 0 := by
      norm_num [Cognitive.expected_variance, w1m]
    unfold Cognitive.expected_sd_raw
    rw [hv]
    simp
  exact ⟨h, standardizer_zero_sd_zero_z _ _ _ h⟩

/-- The single matched marker of the spec scenario: beta 0.1,
effect-allele frequency 0.3, heterozygous contribution 0.1. -/
def eaScenario : List Cognitive.MatchedSNP := [⟨1 / 10, 3 / 10, 1 / 10⟩]

/-- Model of `scipy.stats.t.ppf(0.975, df)` for the scenario: NaN (`none`)
at df = 0, which lies outside the Student-t domain, and the df = 1
critical value 12.706 elsewhere (only df = 0 is reached with one matched
marker). -/
noncomputable def tppfScipy : ℕ → Option ℝ :=
  fun df => if df = 0 then none else some 12.706

/-- C4 (counterexample): on the claimed single-marker scenario the
standardizer returns z-score 0, not (0.1-0.06)/sqrt(0.0042) ≈ 0.617: with
one matched marker the small-sample branch computes t.ppf(0.975, 0),
which is NaN; the widened SD is then NaN, the positivity guard fails, and
the z-score falls back to the identically-zero empirical z-score. -/
theorem cognitive_scenario_z_cex :
    (Cognitive.standardize_score_improved tppfScipy (fun _ => 0)
        eaScenario).z_score
      ≠ (1 / 10 - 3 / 50 : ℝ) / Real.sqrt (21 / 5000) := by
  have hz : (Cognitive.standardize_score_improved tppfScipy (fun _ => 0)
      eaScenario).z_score = 0 := by
    show Cognitive.population_z tppfScipy eaScenario = 0
    have hadj : Cognitive.adjusted_expected_sd tppfScipy eaScenario
        = none := by
      unfold Cognitive.adjusted_expected_sd tppfScipy
      norm_num [eaScenario]
    unfold Cognitive.population_z
    rw [hadj]
    exact Cognitive.empirical_z_zero eaScenario
  rw [hz]
  have hpos : (0 : ℝ) < (1 / 10 - 3 / 50 : ℝ) / Real.sqrt (21 / 5000) :=
    div_pos (by norm_num) (Real.sqrt_pos.mpr (by norm_num))
  exact ne_of_lt hpos

/-- C4 (amended): the allele-frequency estimator sums beta × 2f into the
expected mean and beta² × 2f × (1-f) into the expected variance, with the
pre-adjustment SD its square root — on the scenario marker expectedMean
= 0.06, expectedVariance = 0.0042, raw score 0.1 — but the returned
z-score is 0, not (0.1-0.06)/sqrt(0.0042) ≈ 0.617, because with a single
matched marker the small-sample correction queries the t distribution at
df = 0, whose critical value is NaN: the widened SD fails the positivity
guard and the z-score falls back to the identically-zero empirical
z-score. -/
theorem cognitive_single_marker_standardization (tppf : ℕ → Option ℝ)
    (ncdf : ℝ → ℝ) (h0 : tppf 0 = none) :
    Cognitive.expected_mean eaScenario = 3 / 50
      ∧ Cognitive.expected_variance eaScenario = 21 / 5000
      ∧ Cognitive.expected_sd_raw eaScenario = Real.sqrt (21 / 5000)
      ∧ Cognitive.raw_score eaScenario = 1 / 10
      ∧ (Cognitive.standardize_score_improved tppf ncdf eaScenario).z_score
        = 0 := by
  refine ⟨by norm_num [Cognitive.expected_mean, eaScenario],
    by norm_num [Cognitive.expected_variance, eaScenario], ?_,
    by norm_num [Cognitive.raw_score, Cognitive.contributions, eaScenario],
    ?_⟩
  · unfold Cognitive.expected_sd_raw
    norm_num [Cognitive.expected_variance, eaScenario]
  · show Cognitive.population_z tppf eaScenario = 0
    have hadj : Cognitive.adjusted_expected_sd tppf eaScenario = none := by
      unfold Cognitive.adjusted_expected_sd
      norm_num [eaScenario, h0]
    unfold Cognitive.population_z
    rw [hadj]
    exact Cognitive.empirical_z_zero eaScenario

/-- C4 (witness): the amended statement at the concrete scipy model
`tppfScipy`, whose value at df = 0 is NaN. -/
theorem cognitive_single_marker_standardization_witness :
    tppfScipy 0 = none
      ∧ (Cognitive.standardize_score_improved tppfScipy (fun _ => 0)
          eaScenario).z_score = 0 := by
  have h0 : tppfScipy 0 = none := by simp [tppfScipy]
  exact ⟨h0, (cognitive_single_marker_standardization tppfScipy (fun _ => 0)
    h0).2.2.2.2⟩

/-- C7: the analytic (bootstrap = False) 95% confidence interval is
rawScore ± 1.96 × expectedSD — hence its bounds sum to twice the raw
score, i.e. the interval is symmetric about it — where the expected SD
has first been widened by t-critical(df = matched - 1)/1.96 whenever
fewer than 100 markers are matched, and is the unwidened square root of
the expected variance otherwise. -/
theorem cognitive_ci_analytic (tppf : ℕ → Option ℝ) (ncdf : ℝ → ℝ)
    (m : List Cognitive.MatchedSNP) :
    (∀ s : ℝ,
        (Cognitive.standardize_score_improved tppf ncdf m).expected_sd
            = some s →
        (Cognitive.standardize_score_improved tppf ncdf m).confidence_low
              = some (((Cognitive.raw_score m : ℚ) : ℝ) - 1.96 * s)
          ∧ (Cognitive.standardize_score_improved tppf ncdf
                m).confidence_high
              = some (((Cognitive.raw_score m : ℚ) : ℝ) + 1.96 * s)
          ∧ (((Cognitive.raw_score m : ℚ) : ℝ) - 1.96 * s)
                + (((Cognitive.raw_score m : ℚ) : ℝ) + 1.96 * s)
              = 2 * ((Cognitive.raw_score m : ℚ) : ℝ))
      ∧ (m.length < 100 → ∀ t : ℝ, tppf (m.length - 1) = some t →
          (Cognitive.standardize_score_improved tppf ncdf m).expected_sd
            = some (Cognitive.expected_sd_raw m * (t / 1.96)))
      ∧ (100 ≤ m.length →
          (Cognitive.standardize_score_improved tppf ncdf m).expected_sd
            = some (Cognitive.expected_sd_raw m)) := by
  refine ⟨?_, ?_, ?_⟩
  · intro s hs
    have hadj : Cognitive.adjusted_expected_sd tppf m = some s := hs
    refine ⟨?_, ?_, by ring⟩
    · show (Cognitive.adjusted_expected_sd tppf m).map _ = _
      rw [hadj]
      rfl
    · show (Cognitive.adjusted_expected_sd tppf m).map _ = _
      rw [hadj]
      rfl
  · intro hlen t ht
    show Cognitive.adjusted_expected_sd tppf m = _
    unfold Cognitive.adjusted_expected_sd
    rw [if_pos hlen, ht]
    rfl
  · intro h100
    show Cognitive.adjusted_expected_sd tppf m = _
    unfold Cognitive.adjusted_expected_sd
    rw [if_neg (Nat.not_lt.mpr h100)]

/-- Constant t-critical model for the C7 witness. -/
noncomputable def w7t : ℕ → Option ℝ := fun _ => some 2

/-- Two matched markers for the C7 witness. -/
def w7m : List Cognitive.MatchedSNP := [⟨1, 1 / 2, 1⟩, ⟨1, 1 / 2, 1⟩]

/-- C7 (witness): with two matched markers (< 100) and t-critical 2, the
interval is raw ± 1.96 × (sd × (2/1.96)) and its bounds sum to twice the
raw score. -/
theorem cognitive_ci_analytic_witness :
    (Cognitive.standardize_score_improved w7t (fun _ => 0)
        w7m).confidence_low
        = some (((Cognitive.raw_score w7m : ℚ) : ℝ)
            - 1.96 * (Cognitive.expected_sd_raw w7m * (2 / 1.96)))
      ∧ (Cognitive.standardize_score_improved w7t (fun _ => 0)
          w7m).confidence_high
        = some (((Cognitive.raw_score w7m : ℚ) : ℝ)
            + 1.96 * (Cognitive.expected_sd_raw w7m * (2 / 1.96)))
      ∧ (((Cognitive.raw_score w7m : ℚ) : ℝ)
            - 1.96 * (Cognitive.expected_sd_raw w7m * (2 / 1.96)))
          + (((Cognitive.raw_score w7m : ℚ) : ℝ)
            + 1.96 * (Cognitive.expected_sd_raw w7m * (2 / 1.96)))
        = 2 * ((Cognitive.raw_score w7m : ℚ) : ℝ) := by
  have h := cognitive_ci_analytic w7t (fun _ => 0) w7m
  have hsd := h.2.1 (by norm_num [w7m]) 2 rfl
  exact h.1 _ hsd

/-- C6: standardization is gated on coverage (cognitive_score.py:174):
whenever the reported coverage is below the 3% threshold the result
carries `None` for z-score, percentile, expected mean, expected SD and
both confidence bounds — no default number is substituted — and
conversely a present z-score implies coverage above 3%. -/
theorem cognitive_coverage_gate (tppf : ℕ → Option ℝ) (ncdf : ℝ → ℝ)
    (sumstats : List (String × Cognitive.Gwas))
    (store : String → Option (List Char)) (flag : Bool) :
    (∀ c : ℚ,
        (Cognitive.calculate_polygenic_score tppf ncdf sumstats store
            flag).coverage_percent = some c →
        c < 3 →
        (Cognitive.calculate_polygenic_score tppf ncdf sumstats store
              flag).z_score = none
          ∧ (Cognitive.calculate_polygenic_score tppf ncdf sumstats store
              flag).percentile = none
          ∧ (Cognitive.calculate_polygenic_score tppf ncdf sumstats store
              flag).expected_mean = none
          ∧ (Cognitive.calculate_polygenic_score tppf ncdf sumstats store
              flag).expected_sd = none
          ∧ (Cognitive.calculate_polygenic_score tppf ncdf sumstats store
              flag).confidence_low = none
          ∧ (Cognitive.calculate_polygenic_score tppf ncdf sumstats store
              flag).confidence_high = none)
      ∧ ((Cognitive.calculate_polygenic_score tppf ncdf sumstats store
            flag).z_score.isSome →
          ∃ c : ℚ,
            (Cognitive.calculate_polygenic_score tppf ncdf sumstats store
                flag).coverage_percent = some c ∧ 3 < c) := by
  simp only [Cognitive.calculate_polygenic_score]
  split_ifs with h0 hgate
  · constructor
    · intro c hc
      exact absurd hc (by simp)
    · intro hz
      exact absurd hz (by simp)
  · constructor
    · intro c hc hlt
      have hc2 : ((Cognitive.matched_snps sumstats store).length : ℚ)
          / (sumstats.length : ℚ) * 100 = c := by
        simpa using hc
      exact absurd hlt (not_lt.mpr (le_of_lt (hc2 ▸ hgate.2)))
    · intro hz
      exact ⟨_, rfl, hgate.2⟩
  · constructor
    · intro c hc hlt
      exact ⟨rfl, rfl, rfl, rfl, rfl, rfl⟩
    · intro hz
      exact absurd hz (by simp)

lemma foldl_replicate_fixed {A B : Type} (f : A -> B -> A) (x : B)
    (hf : forall a, f a x = a) : forall (n : Nat) (a : A),
    List.foldl f a (List.replicate n x) = a := by
  intro n
  induction n with
  | zero => intro a; rfl
  | succ k ih =>
    intro a
    rw [List.replicate_succ, List.foldl_cons, hf]
    exact ih a

/-- GWAS row for the C6 witness. -/
def gwC6 : Cognitive.Gwas := ⟨'A', 'G', 1 / 2, 1⟩

/-- Summary statistics for the C6 witness: 40 rows, of which only rs0 is
in the store, so coverage is 1/40 = 2.5%. -/
def c6Sumstats : List (String × Cognitive.Gwas) :=
  ("rs0", gwC6) :: List.replicate 39 ("rsX", gwC6)

/-- Store for the C6 witness: only rs0 present, genotype AA. -/
def c6Store : String → Option (List Char) :=
  fun s => if s = "rs0" then some ['A', 'A'] else none

lemma c6_match_skip : forall a, Cognitive.matchStep c6Store a ("rsX", gwC6) = a := by
  intro a
  rfl

/-- C6 (witness): at 2.5% coverage (1 of 40 markers matched) the result
reports coverage 2.5 and every standardization field as None. -/
theorem cognitive_coverage_gate_witness :
    (Cognitive.calculate_polygenic_score (fun _ => none) (fun _ => 0)
        c6Sumstats c6Store true).coverage_percent = some (5 / 2)
      ∧ (5 : ℚ) / 2 < 3
      ∧ (Cognitive.calculate_polygenic_score (fun _ => none) (fun _ => 0)
          c6Sumstats c6Store true).z_score = none
      ∧ (Cognitive.calculate_polygenic_score (fun _ => none) (fun _ => 0)
          c6Sumstats c6Store true).percentile = none
      ∧ (Cognitive.calculate_polygenic_score (fun _ => none) (fun _ => 0)
          c6Sumstats c6Store true).expected_mean = none
      ∧ (Cognitive.calculate_polygenic_score (fun _ => none) (fun _ => 0)
          c6Sumstats c6Store true).expected_sd = none
      ∧ (Cognitive.calculate_polygenic_score (fun _ => none) (fun _ => 0)
          c6Sumstats c6Store true).confidence_low = none
      ∧ (Cognitive.calculate_polygenic_score (fun _ => none) (fun _ => 0)
          c6Sumstats c6Store true).confidence_high = none := by
  have hm : Cognitive.matched_snps c6Sumstats c6Store
      = [⟨1, 1 / 2, 2⟩] := by
    show List.foldl (Cognitive.matchStep c6Store) [] c6Sumstats = _
    unfold c6Sumstats
    rw [List.foldl_cons, foldl_replicate_fixed _ _ c6_match_skip 39]
    have hA : ('A' : Char).toUpper = 'A' := rfl
    have hG : ('G' : Char).toUpper = 'G' := rfl
    simp [Cognitive.matchStep, c6Store, gwC6, hA, hG]
  have hlen : c6Sumstats.length = 40 := by simp [c6Sumstats]
  have hcov : (Cognitive.calculate_polygenic_score (fun _ => none)
      (fun _ => 0) c6Sumstats c6Store true).coverage_percent
      = some (5 / 2) := by
    simp only [Cognitive.calculate_polygenic_score, hm, hlen]
    norm_num
  have h := (cognitive_coverage_gate (fun _ => none) (fun _ => 0) c6Sumstats
    c6Store true).1 (5 / 2) hcov (by norm_num)
  exact ⟨hcov, by norm_num, h.1, h.2.1, h.2.2.1, h.2.2.2.1, h.2.2.2.2.1,
    h.2.2.2.2.2⟩

/-- C5: the genotype interpreter tries exactly four lookups in order —
the genotype as given, the reversed genotype, the Watson-Crick
complemented genotype (A-T and C-G swapped, other characters passed
through unchanged), and the reversed complement — where each later
transform is consulted only when every earlier one failed to classify
against the table, and the genotype is reported unknown exactly when all
four lookups fail. -/
theorem interpretation_transform_order (g : List Char)
    (data : List Char → Option String) :
    (∀ v, data g = some v →
        DnaInterp.get_genotype_interpretation g data = v)
      ∧ (data g = none → ∀ v, data g.reverse = some v →
          DnaInterp.get_genotype_interpretation g data = v)
      ∧ (data g = none → data g.reverse = none →
          ∀ v, data (g.map DnaInterp.complement_map) = some v →
          DnaInterp.get_genotype_interpretation g data = v)
      ∧ (data g = none → data g.reverse = none →
          data (g.map DnaInterp.complement_map) = none →
          ∀ v, data ((g.map DnaInterp.complement_map).reverse) = some v →
          DnaInterp.get_genotype_interpretation g data = v)
      ∧ (data g = none → data g.reverse = none →
          data (g.map DnaInterp.complement_map) = none →
          data ((g.map DnaInterp.complement_map).reverse) = none →
          DnaInterp.get_genotype_interpretation g data
            = "Unknown genotype: " ++ String.mk g) := by
  unfold DnaInterp.get_genotype_interpretation
  refine ⟨?_, ?_, ?_, ?_, ?_⟩ <;> intros <;> simp_all

/-- Interpretation table for the C5 witness: only the key CT is
present. -/
def c5Data : List Char → Option String :=
  fun x => if x = ['C', 'T'] then some "het" else none

/-- C5 (witness): the genotype TC is classified through the second
(reversed) lookup, and the genotype XX, which all four lookups miss, is
reported unknown. -/
theorem interpretation_transform_order_witness :
    DnaInterp.get_genotype_interpretation ['T', 'C'] c5Data = "het"
      ∧ DnaInterp.get_genotype_interpretation ['X', 'X'] c5Data
        = "Unknown genotype: XX" := by
  constructor
  · exact (interpretation_transform_order ['T', 'C'] c5Data).2.1
      (by simp [c5Data]) "het" (by simp [c5Data])
  · have h := (interpretation_transform_order ['X', 'X'] c5Data).2.2.2.2
      (by simp [c5Data, DnaInterp.complement_map])
      (by simp [c5Data, DnaInterp.complement_map])
      (by simp [c5Data, DnaInterp.complement_map])
      (by simp [c5Data, DnaInterp.complement_map])
    rw [h]
    rfl

/-- C9 (witness): the rs1049434 configuration — endurance {T}, power {A}
(the complement of T) — on the homozygous-power genotype AA: the power
count is 0 and the score is non-negative. -/
theorem athletic_complement_pair_witness :
    (∀ c ∈ (['T'] : List Char),
        Athletic.complement (Athletic.complement c) = c)
      ∧ (['A'] : List Char) = ['T'].map Athletic.complement
      ∧ (Athletic.countAlleles ['A', 'A'] ['T'] ['A']).2 = 0
      ∧ (0 : ℚ) ≤ 1
      ∧ 0 ≤ Athletic.snp_score ['A', 'A'] ['T'] ['A'] 1 := by
  have h := athletic_complement_pair_never_negative ['T'] ['A'] ['A', 'A'] 1
    (by decide) (by decide)
  exact ⟨by decide, by decide, h.1, by norm_num, h.2 (by norm_num)⟩
